import Mathlib

set_option autoImplicit false

/-!
Verification of the DiaLog diabetes meal-safety decision engine.

The definitions below are a shallow embedding of the Python sources
`backend/improved_model_system.py`, `backend/enhanced_medical_guardrails.py`
and `backend/main.py`.  Python floats are modelled as rationals, a
`dict.get`/`Series.get` with a default as `Option.getD` (a `none` field is an
absent key), raised exceptions as `Except`, and the statistical classifier as
an oracle function from the 13-entry feature vector of
`prepare_features_for_model` to the pair (`pred_class == 1`, `max(pred_proba)`);
the scaler, when present, is absorbed into that oracle.  The human-readable
reason strings are modelled by one constructor per `reasons.append(...)` site,
carrying the numbers interpolated into the corresponding f-string; the purely
cosmetic `generate_explanation` rendering is not modelled.
-/

/-- `RiskLevel` from `improved_model_system.py` (the trailing underscore of the
third constructor only avoids a reserved word). -/
inductive RiskLevel where
  | SAFE
  | CAUTION
  | UNSAFE_
  deriving DecidableEq

/-- The Python exceptions the embedded code can raise. -/
inductive PyError where
  | valueError
  | zeroDivision
  deriving DecidableEq

/-- One row of the Food Master Dataset, keyed by dish name.  A `none` field
models a column that is absent from the CSV, so that `Series.get` returns the
documented default. -/
structure FoodRow where
  name : String
  serving_size_g : Option ℚ
  carbs_g : Option ℚ
  sugar_g : Option ℚ
  protein_g : Option ℚ
  fiber_g : Option ℚ
  calories_kcal : Option ℚ
  glycemic_index : Option ℚ
  glycemic_load : Option ℚ
  avoid_for_diabetic_raw : Option String
  deriving DecidableEq

/-- The dictionary returned by `compute_portion_features`. -/
structure PortionFeatures where
  portion_multiplier : ℚ
  carbs_effective_g : ℚ
  sugar_effective_g : ℚ
  calories_effective_kcal : ℚ
  GL_portion : ℚ
  fiber_to_carb_ratio : ℚ
  protein_to_carb_ratio : ℚ
  energy_density : ℚ
  glycemic_index : ℚ
  glycemic_load : ℚ
  deriving DecidableEq

/-- `MealSafetyPredictor.compute_portion_features`.  The only division whose
divisor is not guarded is `portion_size_g / serving_size_g`: when the
`serving_size_g` column is present and holds `0`, Python raises
`ZeroDivisionError` (the `energy_density` line, by contrast, is guarded by
`if serving_size_g > 0`). -/
def compute_portion_features (food_row : FoodRow) (portion_size_g : ℚ) :
    Except PyError PortionFeatures :=
  let serving_size_g := food_row.serving_size_g.getD 100
  let carbs_g := food_row.carbs_g.getD 0
  let sugar_g := food_row.sugar_g.getD 0
  let calories_kcal := food_row.calories_kcal.getD 0
  let protein_g := food_row.protein_g.getD 0
  let fiber_g := food_row.fiber_g.getD 0
  let glycemic_index := food_row.glycemic_index.getD 50
  if serving_size_g = 0 then
    .error PyError.zeroDivision
  else
    let portion_multiplier := portion_size_g / serving_size_g
    let carbs_effective_g := carbs_g * portion_multiplier
    let sugar_effective_g := sugar_g * portion_multiplier
    let calories_effective_kcal := calories_kcal * portion_multiplier
    let GL_portion := carbs_effective_g * glycemic_index / 100
    let fiber_to_carb_ratio := fiber_g / max 1 carbs_g
    let protein_to_carb_ratio := protein_g / max 1 carbs_g
    let energy_density := if serving_size_g > 0 then calories_kcal / serving_size_g else 0
    .ok { portion_multiplier := portion_multiplier
          carbs_effective_g := carbs_effective_g
          sugar_effective_g := sugar_effective_g
          calories_effective_kcal := calories_effective_kcal
          GL_portion := GL_portion
          fiber_to_carb_ratio := fiber_to_carb_ratio
          protein_to_carb_ratio := protein_to_carb_ratio
          energy_density := energy_density
          glycemic_index := glycemic_index
          glycemic_load := food_row.glycemic_load.getD 0 }

/-- ASCII lower-casing of one character, as `str.lower` acts on the
alphabetical characters that occur in the dataset. -/
def lc_char (c : Char) : Char :=
  if 65 ≤ c.toNat ∧ c.toNat ≤ 90 then Char.ofNat (c.toNat + 32) else c

def lower_list (l : List Char) : List Char := l.map lc_char

def is_ws (c : Char) : Bool := c = ' ' ∨ c = '\t' ∨ c = '\n' ∨ c = '\r'

/-- Python `str.strip()`. -/
def strip_list (l : List Char) : List Char :=
  ((l.dropWhile is_ws).reverse.dropWhile is_ws).reverse

/-- Python substring test `needle in hay`. -/
def sub_list (needle hay : List Char) : Bool :=
  (List.range (hay.length + 1)).any (fun i => needle.isPrefixOf (hay.drop i))

/-- `str(food_row.get('avoid_for_diabetic', '')).strip().lower() == 'yes'`. -/
def avoid_for_diabetic (food_row : FoodRow) : Bool :=
  lower_list (strip_list (food_row.avoid_for_diabetic_raw.getD "").data) = "yes".data

/-- One constructor per `reasons.append(...)` site of `apply_hard_guardrails`,
in source order, carrying the interpolated numbers. -/
inductive Reason where
  | avoid_high_risk (sugar gl : ℚ)
  | avoid_high_risk_small_portion (mult : ℚ)
  | avoid_excessive_portion (mult : ℚ)
  | avoid_large_portion (mult : ℚ)
  | avoid_moderate_risk_large (mult : ℚ)
  | avoid_elevated_portion (mult : ℚ)
  | extreme_portion (mult : ℚ)
  | very_large_portion_high_gl (mult : ℚ)
  | very_large_portion (mult : ℚ)
  | large_portion_moderate_gl (mult : ℚ)
  | very_high_sugar (sugar : ℚ)
  | high_sugar (sugar : ℚ)
  | very_high_gl (gl : ℚ)
  | high_gl (gl : ℚ)
  | very_high_calorie (cal : ℚ)
  | high_calorie (cal : ℚ)
  deriving DecidableEq

/-- The mutable `(risk_level, reasons)` pair threaded through the rule
sequence of `apply_hard_guardrails`. -/
abbrev GuardState := Option RiskLevel × List Reason

/-- Rule 1 of `apply_hard_guardrails`: the smart avoid-for-diabetic rule. -/
def rule_avoid_flag (avoid : Bool) (pf : PortionFeatures) (st : GuardState) : GuardState :=
  if avoid then
    if pf.GL_portion ≤ 8 ∧ pf.sugar_effective_g ≤ 10 ∧ pf.portion_multiplier ≤ 3 then
      st
    else if pf.sugar_effective_g ≥ 25 ∧ pf.GL_portion ≥ 15 then
      if pf.portion_multiplier ≥ 1 then
        (some RiskLevel.UNSAFE_,
         st.2 ++ [Reason.avoid_high_risk pf.sugar_effective_g pf.GL_portion])
      else
        (some RiskLevel.CAUTION,
         st.2 ++ [Reason.avoid_high_risk_small_portion pf.portion_multiplier])
    else if pf.GL_portion ≤ 15 ∧ pf.sugar_effective_g ≤ 20 then
      if pf.portion_multiplier ≥ 4 then
        (some RiskLevel.UNSAFE_, st.2 ++ [Reason.avoid_excessive_portion pf.portion_multiplier])
      else if pf.portion_multiplier ≥ 3 then
        (some RiskLevel.CAUTION, st.2 ++ [Reason.avoid_large_portion pf.portion_multiplier])
      else st
    else
      if pf.portion_multiplier ≥ 2 then
        (some RiskLevel.UNSAFE_, st.2 ++ [Reason.avoid_moderate_risk_large pf.portion_multiplier])
      else if pf.portion_multiplier ≥ 3 / 2 then
        (some RiskLevel.CAUTION, st.2 ++ [Reason.avoid_elevated_portion pf.portion_multiplier])
      else st
  else st

/-- Rule 2: the extreme portion sanity check. -/
def rule_portion_sanity (pf : PortionFeatures) (st : GuardState) : GuardState :=
  if pf.portion_multiplier ≥ 5 then
    (some RiskLevel.UNSAFE_, st.2 ++ [Reason.extreme_portion pf.portion_multiplier])
  else if pf.portion_multiplier ≥ 3 then
    if pf.GL_portion ≥ 15 ∨ pf.sugar_effective_g ≥ 20 then
      (some RiskLevel.UNSAFE_, st.2 ++ [Reason.very_large_portion_high_gl pf.portion_multiplier])
    else if st.1 ≠ some RiskLevel.UNSAFE_ then
      (some RiskLevel.CAUTION, st.2 ++ [Reason.very_large_portion pf.portion_multiplier])
    else st
  else if pf.portion_multiplier ≥ 2 then
    if st.1 ≠ some RiskLevel.UNSAFE_ ∧ (pf.GL_portion ≥ 12 ∨ pf.sugar_effective_g ≥ 15) then
      (some RiskLevel.CAUTION, st.2 ++ [Reason.large_portion_moderate_gl pf.portion_multiplier])
    else st
  else st

/-- Rule 3: sugar load per meal.  Note that in the 30–39 g band the source
appends its reason outside the `risk_level` guard. -/
def rule_sugar_load (pf : PortionFeatures) (st : GuardState) : GuardState :=
  if pf.sugar_effective_g ≥ 40 then
    (some RiskLevel.UNSAFE_, st.2 ++ [Reason.very_high_sugar pf.sugar_effective_g])
  else if pf.sugar_effective_g ≥ 30 then
    ((if st.1 ≠ some RiskLevel.UNSAFE_ then some RiskLevel.CAUTION else st.1),
     st.2 ++ [Reason.high_sugar pf.sugar_effective_g])
  else st

/-- Rule 4: glycemic load thresholds per portion. -/
def rule_glycemic_load (pf : PortionFeatures) (st : GuardState) : GuardState :=
  if pf.GL_portion ≥ 25 then
    (some RiskLevel.UNSAFE_, st.2 ++ [Reason.very_high_gl pf.GL_portion])
  else if pf.GL_portion ≥ 15 then
    ((if st.1 ≠ some RiskLevel.UNSAFE_ then some RiskLevel.CAUTION else st.1),
     st.2 ++ [Reason.high_gl pf.GL_portion])
  else st

/-- Rule 5: calorie density check. -/
def rule_calorie (pf : PortionFeatures) (st : GuardState) : GuardState :=
  if pf.calories_effective_kcal ≥ 800 then
    (some RiskLevel.UNSAFE_, st.2 ++ [Reason.very_high_calorie pf.calories_effective_kcal])
  else if pf.calories_effective_kcal ≥ 700 then
    ((if st.1 ≠ some RiskLevel.UNSAFE_ then some RiskLevel.CAUTION else st.1),
     st.2 ++ [Reason.high_calorie pf.calories_effective_kcal])
  else st

/-- `MealSafetyPredictor.apply_hard_guardrails`: the five rules run in source
order over the initially unset `(risk_level, reasons)` state. -/
def apply_hard_guardrails (food_row : FoodRow) (portion_features : PortionFeatures) :
    GuardState :=
  rule_calorie portion_features
    (rule_glycemic_load portion_features
      (rule_sugar_load portion_features
        (rule_portion_sanity portion_features
          (rule_avoid_flag (avoid_for_diabetic food_row) portion_features (none, [])))))

/-- The per-request user context dictionary. -/
structure UserData where
  age : Option ℚ
  gender : Option String
  bmi : Option ℚ
  fasting_sugar : Option ℚ
  post_meal_sugar : Option ℚ
  time_of_day : Option String
  deriving DecidableEq

/-- `{'Breakfast': 0, 'Lunch': 1, 'Dinner': 2, 'Snack': 3}.get(time_of_day, 0)`. -/
def time_encoded (time_of_day : String) : ℚ :=
  if time_of_day = "Breakfast" then 0
  else if time_of_day = "Lunch" then 1
  else if time_of_day = "Dinner" then 2
  else if time_of_day = "Snack" then 3
  else 0

/-- `MealSafetyPredictor.prepare_features_for_model`: the fixed 13-entry
feature vector (`food_row` is passed but unused by the source body). -/
def prepare_features_for_model (_food_row : FoodRow) (pf : PortionFeatures)
    (user_data : UserData) : List ℚ :=
  [user_data.age.getD 35,
   if user_data.gender.getD "Male" = "Male" then 1 else 0,
   user_data.bmi.getD 25,
   user_data.fasting_sugar.getD 100,
   time_encoded (user_data.time_of_day.getD "Breakfast"),
   pf.portion_multiplier,
   pf.carbs_effective_g,
   pf.sugar_effective_g,
   pf.GL_portion,
   pf.fiber_to_carb_ratio,
   pf.protein_to_carb_ratio,
   pf.energy_density,
   pf.glycemic_index]

set_option synthInstance.maxHeartbeats 1000000 in
/-- The output dictionary of `predict_meal_safety` (the cosmetic
`explanation` string is not modelled). -/
structure PredictionResult where
  risk_level : RiskLevel
  confidence : ℚ
  portion_features : PortionFeatures
  guardrail_triggered : Bool
  model_prediction : Option RiskLevel
  reasons : List Reason
  deriving DecidableEq

/-- `MealSafetyPredictor.predict_meal_safety`.  `food_df` is the loaded
dataset (an unknown dish raises `ValueError`); `model` is the classifier
oracle (`None` when no model artifact is loaded). -/
def predict_meal_safety (food_df : String → Option FoodRow) (meal_name : String)
    (portion_size_g : ℚ) (user_data : UserData)
    (model : Option (List ℚ → Bool × ℚ)) : Except PyError PredictionResult :=
  match food_df meal_name with
  | none => .error PyError.valueError
  | some food_row =>
    match compute_portion_features food_row portion_size_g with
    | .error e => .error e
    | .ok portion_features =>
      let guardrail := apply_hard_guardrails food_row portion_features
      let mp : Option RiskLevel × ℚ :=
        match model with
        | some f =>
          if guardrail.1 ≠ some RiskLevel.UNSAFE_ then
            let out := f (prepare_features_for_model food_row portion_features user_data)
            (some (if out.1 then RiskLevel.SAFE else RiskLevel.CAUTION), out.2)
          else (none, 0)
        | none => (none, 0)
      let final : RiskLevel × ℚ :=
        if guardrail.1 = some RiskLevel.UNSAFE_ then
          (RiskLevel.UNSAFE_, 95 / 100)
        else if guardrail.1 = some RiskLevel.CAUTION then
          if mp.1 = some RiskLevel.SAFE ∧ mp.2 > 9 / 10 then
            (RiskLevel.SAFE, mp.2 * (8 / 10))
          else
            (RiskLevel.CAUTION, max (7 / 10) mp.2)
        else
          (mp.1.getD RiskLevel.CAUTION, if mp.2 > 0 then mp.2 else 6 / 10)
      .ok { risk_level := final.1
            confidence := final.2
            portion_features := portion_features
            guardrail_triggered := guardrail.1.isSome
            model_prediction := mp.1
            reasons := guardrail.2 }

/-! ## `enhanced_medical_guardrails.py` -/

/-- One constructor per `reasons.append(...)` site of
`get_enhanced_medical_guardrails`, in source order. -/
inductive EnhReason where
  | veg_very_large (mult : ℚ)
  | veg_healthy
  | veg_moderate
  | veg_high
  | lentil_large (mult : ℚ)
  | lentil_healthy
  | lentil_moderate
  | lentil_high
  | dessert_high_sugar (sugar : ℚ)
  | dessert_moderate_sugar (sugar : ℚ)
  | dessert_low_sugar
  | grain_reasonable (gl : ℚ)
  | grain_moderate (gl : ℚ)
  | grain_high (gl : ℚ)
  | bread_reasonable (gl : ℚ)
  | bread_moderate (gl : ℚ)
  | bread_high (gl : ℚ)
  | extreme_sugar (sugar : ℚ)
  | extreme_gl (gl : ℚ)
  | extreme_portion (mult : ℚ)
  deriving DecidableEq

def vegetable_keywords : List String :=
  ["vegetable", "sabzi", "subji", "cabbage", "cauliflower", "spinach",
   "broccoli", "beans", "carrot", "beetroot", "tomato", "cucumber",
   "onion", "capsicum", "bell pepper", "leafy", "greens", "bhindi",
   "okra", "brinjal", "eggplant", "gourd", "pumpkin", "radish",
   "stock", "soup"]

def lentil_keywords : List String :=
  ["dal", "moong", "masoor", "arhar", "urad", "chana", "lentil",
   "chickpea", "split pea", "daliya", "porridge"]

def dessert_keywords : List String :=
  ["cake", "ice cream", "jamun", "sweet", "chocolate", "caramel",
   "kheer", "halwa", "laddu", "barfi", "rasgulla", "kulfi", "pastry",
   "cookie", "biscuit", "mithai", "gulab", "jalebi", "lassi"]

def grain_keywords : List String :=
  ["rice", "biryani", "pulao", "poha", "upma", "flakes", "murmura"]

def bread_keywords : List String :=
  ["roti", "chapati", "paratha", "naan", "bread"]

/-- `any(keyword in food_name_lower for keyword in ...)`. -/
def contains_keyword (food_name_lower : List Char) (keywords : List String) : Bool :=
  keywords.any (fun k => sub_list k.data food_name_lower)

/-- The five category-specific medical-guideline branches of
`get_enhanced_medical_guardrails` (everything before the final
extreme safety checks). -/
def enhanced_category_block (food_row : FoodRow) (pf : PortionFeatures) :
    Option RiskLevel × List EnhReason :=
  let food_name_lower := lower_list food_row.name.data
  let is_vegetable := contains_keyword food_name_lower vegetable_keywords
  let is_lentil := contains_keyword food_name_lower lentil_keywords
  let is_dessert := contains_keyword food_name_lower dessert_keywords
  let is_grain := contains_keyword food_name_lower grain_keywords
  let is_bread := contains_keyword food_name_lower bread_keywords
  if is_vegetable ∧ ¬is_dessert then
    if pf.GL_portion ≤ 15 ∧ pf.sugar_effective_g ≤ 12 then
      if pf.portion_multiplier ≥ 4 then
        (some RiskLevel.CAUTION, [EnhReason.veg_very_large pf.portion_multiplier])
      else
        (some RiskLevel.SAFE, [EnhReason.veg_healthy])
    else if pf.GL_portion ≤ 25 ∧ pf.sugar_effective_g ≤ 20 then
      (some RiskLevel.CAUTION, [EnhReason.veg_moderate])
    else
      (some RiskLevel.CAUTION, [EnhReason.veg_high])
  else if is_lentil ∧ ¬is_dessert then
    if pf.GL_portion ≤ 20 ∧ pf.sugar_effective_g ≤ 15 then
      if pf.portion_multiplier ≥ 3 then
        (some RiskLevel.CAUTION, [EnhReason.lentil_large pf.portion_multiplier])
      else
        (some RiskLevel.SAFE, [EnhReason.lentil_healthy])
    else if pf.GL_portion ≤ 35 then
      (some RiskLevel.CAUTION, [EnhReason.lentil_moderate])
    else
      (some RiskLevel.CAUTION, [EnhReason.lentil_high])
  else if is_dessert then
    let sugar_per_100g := food_row.sugar_g.getD 0
    if sugar_per_100g ≥ 10 ∨ pf.sugar_effective_g ≥ 6 then
      (some RiskLevel.UNSAFE_, [EnhReason.dessert_high_sugar pf.sugar_effective_g])
    else if sugar_per_100g ≥ 5 ∨ pf.sugar_effective_g ≥ 3 then
      (some RiskLevel.CAUTION, [EnhReason.dessert_moderate_sugar pf.sugar_effective_g])
    else
      (some RiskLevel.CAUTION, [EnhReason.dessert_low_sugar])
  else if is_grain then
    if pf.GL_portion ≤ 10 then
      (some RiskLevel.SAFE, [EnhReason.grain_reasonable pf.GL_portion])
    else if pf.GL_portion ≤ 20 then
      (some RiskLevel.CAUTION, [EnhReason.grain_moderate pf.GL_portion])
    else
      (some RiskLevel.UNSAFE_, [EnhReason.grain_high pf.GL_portion])
  else if is_bread then
    if pf.GL_portion ≤ 15 then
      (some RiskLevel.SAFE, [EnhReason.bread_reasonable pf.GL_portion])
    else if pf.GL_portion ≤ 25 then
      (some RiskLevel.CAUTION, [EnhReason.bread_moderate pf.GL_portion])
    else
      (some RiskLevel.UNSAFE_, [EnhReason.bread_high pf.GL_portion])
  else
    (none, [])

/-- `get_enhanced_medical_guardrails`: category block followed by the
always-applied extreme safety checks, whose assignments overwrite the
category verdict unconditionally (`user_context` is accepted but unused
by the source body). -/
def get_enhanced_medical_guardrails (food_row : FoodRow) (pf : PortionFeatures)
    (_user_context : Option UserData) : Option RiskLevel × List EnhReason :=
  let st := enhanced_category_block food_row pf
  if pf.sugar_effective_g ≥ 30 then
    (some RiskLevel.UNSAFE_, st.2 ++ [EnhReason.extreme_sugar pf.sugar_effective_g])
  else if pf.GL_portion ≥ 40 then
    (some RiskLevel.UNSAFE_, st.2 ++ [EnhReason.extreme_gl pf.GL_portion])
  else if pf.portion_multiplier ≥ 6 then
    (some RiskLevel.UNSAFE_, st.2 ++ [EnhReason.extreme_portion pf.portion_multiplier])
  else st

/-! ## `main.py` (FastAPI layer) -/

/-- The `/predict` request body `MealRequest` (pydantic model: every field is
a plain type with no validator, so no value is rejected at parse time). -/
structure MealRequest where
  age : ℚ
  gender : String
  weight_kg : ℚ
  height_cm : ℚ
  fasting_sugar : ℚ
  post_meal_sugar : ℚ
  meal_taken : String
  time_of_day : String
  portion_size : ℚ
  portion_unit : String
  deriving DecidableEq

/-- Python `round(x, 1)` (round half to even at one decimal). -/
def py_round1 (x : ℚ) : ℚ :=
  let y := x * 10
  let f : ℤ := ⌊y⌋
  let r := y - f
  let n : ℤ := if r < 1 / 2 then f else if 1 / 2 < r then f + 1
               else if f % 2 = 0 then f else f + 1
  (n : ℚ) / 10

/-- `calculate_bmi` from `main.py`: non-positive height or weight is not an
error — the function silently returns the default BMI 25.0. -/
def calculate_bmi (weight_kg height_cm : ℚ) : ℚ :=
  if height_cm ≤ 0 ∨ weight_kg ≤ 0 then 25
  else
    let height_m := height_cm / 100
    py_round1 (weight_kg / height_m ^ 2)

/-- The `portion_unit_to_grams` dict of the `/predict` handler, applied to the
lower-cased unit, with the `.get(..., 100)` fallback. -/
def portion_unit_to_grams (unit : List Char) : ℚ :=
  if unit = "cup".data then 200
  else if unit = "bowl".data then 250
  else if unit = "plate".data then 300
  else if unit = "piece".data then 100
  else if unit = "slice".data then 50
  else if unit = "spoon".data then 15
  else if unit = "glass".data then 250
  else if unit = "g".data then 1
  else if unit = "grams".data then 1
  else 100

/-- HTTP-level failures of the `/predict` handler: `ValueError` from the
predictor is turned into a 400, any other exception into a 500. -/
inductive ApiError where
  | badRequest
  | serverError
  deriving DecidableEq

/-- The part of `PredictionResponse` that carries decision data (the
`message`, `nutritional_info` and `recommendations` rendering fields are
not modelled). -/
structure PredictionResponse where
  is_safe : Bool
  confidence : ℚ
  risk_level : String
  bmi : ℚ
  deriving DecidableEq

/-- The `/predict` handler of `main.py` with the predictor state
(`food_df`, `model`) passed explicitly.  There is no quantity validation:
`portion_size` is multiplied by the unit factor whatever its sign. -/
def predict_endpoint (food_df : String → Option FoodRow)
    (model : Option (List ℚ → Bool × ℚ)) (request : MealRequest) :
    Except ApiError PredictionResponse :=
  let portion_size_g :=
    request.portion_size * portion_unit_to_grams (lower_list request.portion_unit.data)
  let bmi := calculate_bmi request.weight_kg request.height_cm
  let user_data : UserData :=
    { age := some request.age
      gender := some request.gender
      bmi := some bmi
      fasting_sugar := some request.fasting_sugar
      post_meal_sugar := some request.post_meal_sugar
      time_of_day := some request.time_of_day }
  match predict_meal_safety food_df request.meal_taken portion_size_g user_data model with
  | .error PyError.valueError => .error ApiError.badRequest
  | .error _ => .error ApiError.serverError
  | .ok result =>
    let mapped : String × Bool :=
      if result.risk_level = RiskLevel.SAFE then ("low", true)
      else if result.risk_level = RiskLevel.CAUTION then ("medium", false)
      else ("high", false)
    .ok { is_safe := mapped.2
          confidence := result.confidence
          risk_level := mapped.1
          bmi := bmi }

/-! ## Severity order and per-rule analysis of `apply_hard_guardrails` -/

/-- Severity of a verdict in the SAFE < CAUTION < UNSAFE order. -/
def sev : RiskLevel → ℕ
  | RiskLevel.SAFE => 0
  | RiskLevel.CAUTION => 1
  | RiskLevel.UNSAFE_ => 2

/-- Severity of an optional verdict (`none` = no guardrail fired). -/
def osev : Option RiskLevel → ℕ
  | none => 0
  | some r => sev r

/-- Severity contributed by rule 1 (avoid-for-diabetic) viewed in isolation. -/
def contrib_avoid (avoid : Bool) (pf : PortionFeatures) : ℕ :=
  if avoid then
    if pf.GL_portion ≤ 8 ∧ pf.sugar_effective_g ≤ 10 ∧ pf.portion_multiplier ≤ 3 then 0
    else if pf.sugar_effective_g ≥ 25 ∧ pf.GL_portion ≥ 15 then
      if pf.portion_multiplier ≥ 1 then 2 else 1
    else if pf.GL_portion ≤ 15 ∧ pf.sugar_effective_g ≤ 20 then
      if pf.portion_multiplier ≥ 4 then 2 else if pf.portion_multiplier ≥ 3 then 1 else 0
    else
      if pf.portion_multiplier ≥ 2 then 2 else if pf.portion_multiplier ≥ 3 / 2 then 1 else 0
  else 0

/-- Severity contributed by rule 2 (portion sanity) viewed in isolation. -/
def contrib_portion (pf : PortionFeatures) : ℕ :=
  if pf.portion_multiplier ≥ 5 then 2
  else if pf.portion_multiplier ≥ 3 then
    if pf.GL_portion ≥ 15 ∨ pf.sugar_effective_g ≥ 20 then 2 else 1
  else if pf.portion_multiplier ≥ 2 then
    if pf.GL_portion ≥ 12 ∨ pf.sugar_effective_g ≥ 15 then 1 else 0
  else 0

/-- Severity contributed by rule 3 (sugar load) viewed in isolation. -/
def contrib_sugar (pf : PortionFeatures) : ℕ :=
  if pf.sugar_effective_g ≥ 40 then 2 else if pf.sugar_effective_g ≥ 30 then 1 else 0

/-- Severity contributed by rule 4 (glycemic load) viewed in isolation. -/
def contrib_gl (pf : PortionFeatures) : ℕ :=
  if pf.GL_portion ≥ 25 then 2 else if pf.GL_portion ≥ 15 then 1 else 0

/-- Severity contributed by rule 5 (calories) viewed in isolation. -/
def contrib_cal (pf : PortionFeatures) : ℕ :=
  if pf.calories_effective_kcal ≥ 800 then 2 else if pf.calories_effective_kcal ≥ 700 then 1 else 0

/-- Final-verdict severity as a function of the guardrail severity and a
constant classifier output, mirroring step 4 of `predict_meal_safety`
(meaningful because the guardrail engine never produces `SAFE`). -/
def fuse_sev (gsev : ℕ) (output : Option (Bool × ℚ)) : ℕ :=
  if gsev = 2 then 2
  else if gsev = 1 then
    match output with
    | some (true, c) => if c > 9 / 10 then 0 else 1
    | _ => 1
  else
    match output with
    | some (true, _) => 0
    | _ => 1

/-! ## Concrete fixtures used to exercise the theorems -/

/-- A user context dictionary with every key absent. -/
def u0 : UserData :=
  { age := none, gender := none, bmi := none, fasting_sugar := none,
    post_meal_sugar := none, time_of_day := none }

def gulab_jamun : FoodRow :=
  { name := "Gulab jamun", serving_size_g := some 100, carbs_g := some 50,
    sugar_g := some 50, protein_g := some 5, fiber_g := some 1,
    calories_kcal := some 400, glycemic_index := some 70, glycemic_load := some 35,
    avoid_for_diabetic_raw := some "Yes" }

def gulab_df : String → Option FoodRow :=
  fun n => if n = "Gulab jamun" then some gulab_jamun else none

/-- `compute_portion_features gulab_jamun 100` evaluates to this record. -/
def gulab_pf : PortionFeatures :=
  { portion_multiplier := 1, carbs_effective_g := 50, sugar_effective_g := 50,
    calories_effective_kcal := 400, GL_portion := 35, fiber_to_carb_ratio := 1 / 50,
    protein_to_carb_ratio := 1 / 10, energy_density := 4, glycemic_index := 70,
    glycemic_load := 35 }

def sweet_lassi : FoodRow :=
  { name := "Sweet lassi", serving_size_g := some 100, carbs_g := some 10,
    sugar_g := some 35, protein_g := some 3, fiber_g := some 0,
    calories_kcal := some 300, glycemic_index := some 40, glycemic_load := some 4,
    avoid_for_diabetic_raw := none }

def lassi_df : String → Option FoodRow :=
  fun n => if n = "Sweet lassi" then some sweet_lassi else none

/-- `compute_portion_features sweet_lassi 100` evaluates to this record. -/
def lassi_pf : PortionFeatures :=
  { portion_multiplier := 1, carbs_effective_g := 10, sugar_effective_g := 35,
    calories_effective_kcal := 300, GL_portion := 4, fiber_to_carb_ratio := 0,
    protein_to_carb_ratio := 3 / 10, energy_density := 3, glycemic_index := 40,
    glycemic_load := 4 }

/-- A classifier stub that always answers SAFE with confidence 0.95. -/
def confident_safe_model : List ℚ → Bool × ℚ := fun _ => (true, 19 / 20)

/-- A classifier stub that always answers SAFE with confidence 1.0. -/
def always_safe_model : List ℚ → Bool × ℚ := fun _ => (true, 1)

/-- The result of `predict_meal_safety lassi_df "Sweet lassi" 100 u0
(some confident_safe_model)`. -/
def lassi_result : PredictionResult :=
  { risk_level := RiskLevel.SAFE, confidence := 19 / 25, portion_features := lassi_pf,
    guardrail_triggered := true, model_prediction := some RiskLevel.SAFE,
    reasons := [Reason.high_sugar 35] }

def cream_cake : FoodRow :=
  { name := "Plain cream cake", serving_size_g := some 100, carbs_g := some 20,
    sugar_g := some 12, protein_g := some 4, fiber_g := some 1,
    calories_kcal := some 250, glycemic_index := some 60, glycemic_load := some 12,
    avoid_for_diabetic_raw := some "Yes" }

/-- `compute_portion_features cream_cake 30` (one 30 g slice) evaluates to
this record: multiplier 0.3, effective sugar 3.6 g, portion GL 3.6. -/
def cake_pf : PortionFeatures :=
  { portion_multiplier := 3 / 10, carbs_effective_g := 6, sugar_effective_g := 18 / 5,
    calories_effective_kcal := 75, GL_portion := 18 / 5, fiber_to_carb_ratio := 1 / 20,
    protein_to_carb_ratio := 1 / 5, energy_density := 5 / 2, glycemic_index := 60,
    glycemic_load := 12 }

def mixed_dal : FoodRow :=
  { name := "Mixed dal", serving_size_g := some 100, carbs_g := some 20,
    sugar_g := some 1, protein_g := some 8, fiber_g := some 5,
    calories_kcal := some 120, glycemic_index := some 35, glycemic_load := some 7,
    avoid_for_diabetic_raw := some "No" }

def dal_df : String → Option FoodRow :=
  fun n => if n = "Mixed dal" then some mixed_dal else none

/-- `compute_portion_features mixed_dal 100` evaluates to this record. -/
def dal_pf : PortionFeatures :=
  { portion_multiplier := 1, carbs_effective_g := 20, sugar_effective_g := 1,
    calories_effective_kcal := 120, GL_portion := 7, fiber_to_carb_ratio := 1 / 4,
    protein_to_carb_ratio := 2 / 5, energy_density := 6 / 5, glycemic_index := 35,
    glycemic_load := 7 }

/-- `compute_portion_features mixed_dal 0` (a zero-quantity request)
evaluates to this record. -/
def dal_pf0 : PortionFeatures :=
  { portion_multiplier := 0, carbs_effective_g := 0, sugar_effective_g := 0,
    calories_effective_kcal := 0, GL_portion := 0, fiber_to_carb_ratio := 1 / 4,
    protein_to_carb_ratio := 2 / 5, energy_density := 6 / 5, glycemic_index := 35,
    glycemic_load := 7 }

/-- A `/predict` request with `portion_size = 0` and `height_cm = 0`. -/
def req0 : MealRequest :=
  { age := 45, gender := "Male", weight_kg := 70, height_cm := 0,
    fasting_sugar := 110, post_meal_sugar := 140, meal_taken := "Mixed dal",
    time_of_day := "Lunch", portion_size := 0, portion_unit := "bowl" }

/-- A dish whose nutrient columns are all zero (plain hot tea). -/
def hot_tea : FoodRow :=
  { name := "Hot tea", serving_size_g := some 100, carbs_g := some 0,
    sugar_g := some 0, protein_g := some 0, fiber_g := some 0,
    calories_kcal := some 0, glycemic_index := some 0, glycemic_load := some 0,
    avoid_for_diabetic_raw := none }

def tea_df : String → Option FoodRow :=
  fun n => if n = "Hot tea" then some hot_tea else none

/-- A deterministic classifier that reads entry 5 of the feature vector (the
portion multiplier) and answers CAUTION with confidence 0.6 for multipliers
up to 0.5 but SAFE with confidence 0.95 for larger ones. -/
def tea_model : List ℚ → Bool × ℚ :=
  fun v => if v.getD 5 0 ≤ 1 / 2 then (false, 3 / 5) else (true, 19 / 20)

/-- `compute_portion_features hot_tea 50` evaluates to this record. -/
def tea_pf50 : PortionFeatures :=
  { portion_multiplier := 1 / 2, carbs_effective_g := 0, sugar_effective_g := 0,
    calories_effective_kcal := 0, GL_portion := 0, fiber_to_carb_ratio := 0,
    protein_to_carb_ratio := 0, energy_density := 0, glycemic_index := 0,
    glycemic_load := 0 }

/-- `compute_portion_features hot_tea 100` evaluates to this record. -/
def tea_pf100 : PortionFeatures :=
  { portion_multiplier := 1, carbs_effective_g := 0, sugar_effective_g := 0,
    calories_effective_kcal := 0, GL_portion := 0, fiber_to_carb_ratio := 0,
    protein_to_carb_ratio := 0, energy_density := 0, glycemic_index := 0,
    glycemic_load := 0 }

/-- Result of the 50 g hot-tea request against `tea_model`. -/
def tea_cex_result50 : PredictionResult :=
  { risk_level := RiskLevel.CAUTION, confidence := 3 / 5, portion_features := tea_pf50,
    guardrail_triggered := false, model_prediction := some RiskLevel.CAUTION, reasons := [] }

/-- Result of the 100 g hot-tea request against `tea_model`. -/
def tea_cex_result100 : PredictionResult :=
  { risk_level := RiskLevel.SAFE, confidence := 19 / 20, portion_features := tea_pf100,
    guardrail_triggered := false, model_prediction := some RiskLevel.SAFE, reasons := [] }

/-- Result of a hot-tea request with no classifier loaded. -/
def tea_nomodel_result50 : PredictionResult :=
  { risk_level := RiskLevel.CAUTION, confidence := 3 / 5, portion_features := tea_pf50,
    guardrail_triggered := false, model_prediction := none, reasons := [] }

/-- Result of a 100 g hot-tea request with no classifier loaded. -/
def tea_nomodel_result100 : PredictionResult :=
  { risk_level := RiskLevel.CAUTION, confidence := 3 / 5, portion_features := tea_pf100,
    guardrail_triggered := false, model_prediction := none, reasons := [] }

/-- A reference row whose `serving_size_g` column is present and zero. -/
def zero_serving_food : FoodRow :=
  { name := "Broken row", serving_size_g := some 0, carbs_g := some 10,
    sugar_g := some 5, protein_g := some 2, fiber_g := some 1,
    calories_kcal := some 80, glycemic_index := some 50, glycemic_load := some 5,
    avoid_for_diabetic_raw := none }

/-- A reference row whose `serving_size_g` column is absent. -/
def missing_serving_food : FoodRow :=
  { name := "Sparse row", serving_size_g := none, carbs_g := some 10,
    sugar_g := some 5, protein_g := some 2, fiber_g := some 1,
    calories_kcal := some 80, glycemic_index := none, glycemic_load := none,
    avoid_for_diabetic_raw := none }

lemma osev_le_two (o : Option RiskLevel) : osev o ≤ 2 := by
  rcases o with _ | (_ | _ | _) <;> decide

lemma osev_eq_two_iff (o : Option RiskLevel) : osev o = 2 ↔ o = some RiskLevel.UNSAFE_ := by
  rcases o with _ | (_ | _ | _) <;> decide

lemma osev_rule_avoid_flag (a : Bool) (pf : PortionFeatures) :
    osev (rule_avoid_flag a pf (none, [])).1 = contrib_avoid a pf := by
  unfold rule_avoid_flag contrib_avoid
  split_ifs <;> rfl

lemma osev_rule_portion_sanity (pf : PortionFeatures) (st : GuardState) :
    osev (rule_portion_sanity pf st).1 = max (osev st.1) (contrib_portion pf) := by
  obtain ⟨r, rs⟩ := st
  rcases r with _ | (_ | _ | _) <;>
    (unfold rule_portion_sanity contrib_portion; split_ifs <;> simp_all [osev, sev])

lemma osev_rule_sugar_load (pf : PortionFeatures) (st : GuardState) :
    osev (rule_sugar_load pf st).1 = max (osev st.1) (contrib_sugar pf) := by
  obtain ⟨r, rs⟩ := st
  rcases r with _ | (_ | _ | _) <;>
    (unfold rule_sugar_load contrib_sugar; split_ifs <;> simp_all [osev, sev])

lemma osev_rule_glycemic_load (pf : PortionFeatures) (st : GuardState) :
    osev (rule_glycemic_load pf st).1 = max (osev st.1) (contrib_gl pf) := by
  obtain ⟨r, rs⟩ := st
  rcases r with _ | (_ | _ | _) <;>
    (unfold rule_glycemic_load contrib_gl; split_ifs <;> simp_all [osev, sev])

lemma osev_rule_calorie (pf : PortionFeatures) (st : GuardState) :
    osev (rule_calorie pf st).1 = max (osev st.1) (contrib_cal pf) := by
  obtain ⟨r, rs⟩ := st
  rcases r with _ | (_ | _ | _) <;>
    (unfold rule_calorie contrib_cal; split_ifs <;> simp_all [osev, sev])

/-- The guardrail verdict's severity is the maximum of the five rules'
individual contributions: unguarded assignments only ever write `UNSAFE`,
and every `CAUTION` assignment that follows a possible `UNSAFE` is guarded
by `risk_level != RiskLevel.UNSAFE`. -/
lemma osev_apply_hard_guardrails (food_row : FoodRow) (pf : PortionFeatures) :
    osev (apply_hard_guardrails food_row pf).1 =
      max (max (max (max (contrib_avoid (avoid_for_diabetic food_row) pf)
        (contrib_portion pf)) (contrib_sugar pf)) (contrib_gl pf)) (contrib_cal pf) := by
  unfold apply_hard_guardrails
  rw [osev_rule_calorie, osev_rule_glycemic_load, osev_rule_sugar_load,
      osev_rule_portion_sanity, osev_rule_avoid_flag]

lemma rule_portion_sanity_keeps (pf : PortionFeatures) (st : GuardState)
    (h : st.1 = some RiskLevel.UNSAFE_) :
    (rule_portion_sanity pf st).1 = some RiskLevel.UNSAFE_ := by
  unfold rule_portion_sanity
  split_ifs <;> simp_all

lemma rule_sugar_load_keeps (pf : PortionFeatures) (st : GuardState)
    (h : st.1 = some RiskLevel.UNSAFE_) :
    (rule_sugar_load pf st).1 = some RiskLevel.UNSAFE_ := by
  unfold rule_sugar_load
  split_ifs <;> simp_all

lemma rule_glycemic_load_keeps (pf : PortionFeatures) (st : GuardState)
    (h : st.1 = some RiskLevel.UNSAFE_) :
    (rule_glycemic_load pf st).1 = some RiskLevel.UNSAFE_ := by
  unfold rule_glycemic_load
  split_ifs <;> simp_all

lemma rule_calorie_keeps (pf : PortionFeatures) (st : GuardState)
    (h : st.1 = some RiskLevel.UNSAFE_) :
    (rule_calorie pf st).1 = some RiskLevel.UNSAFE_ := by
  unfold rule_calorie
  split_ifs <;> simp_all

lemma rule_avoid_flag_not_safe (a : Bool) (pf : PortionFeatures) (st : GuardState)
    (h : st.1 ≠ some RiskLevel.SAFE) :
    (rule_avoid_flag a pf st).1 ≠ some RiskLevel.SAFE := by
  unfold rule_avoid_flag
  split_ifs <;> simp_all

lemma rule_portion_sanity_not_safe (pf : PortionFeatures) (st : GuardState)
    (h : st.1 ≠ some RiskLevel.SAFE) :
    (rule_portion_sanity pf st).1 ≠ some RiskLevel.SAFE := by
  unfold rule_portion_sanity
  split_ifs <;> simp_all

lemma rule_sugar_load_not_safe (pf : PortionFeatures) (st : GuardState)
    (h : st.1 ≠ some RiskLevel.SAFE) :
    (rule_sugar_load pf st).1 ≠ some RiskLevel.SAFE := by
  unfold rule_sugar_load
  split_ifs <;> simp_all

lemma rule_glycemic_load_not_safe (pf : PortionFeatures) (st : GuardState)
    (h : st.1 ≠ some RiskLevel.SAFE) :
    (rule_glycemic_load pf st).1 ≠ some RiskLevel.SAFE := by
  unfold rule_glycemic_load
  split_ifs <;> simp_all

lemma rule_calorie_not_safe (pf : PortionFeatures) (st : GuardState)
    (h : st.1 ≠ some RiskLevel.SAFE) :
    (rule_calorie pf st).1 ≠ some RiskLevel.SAFE := by
  unfold rule_calorie
  split_ifs <;> simp_all

set_option maxHeartbeats 1600000 in
lemma contrib_avoid_mono (a : Bool) (pf1 pf2 : PortionFeatures)
    (ht : pf1.portion_multiplier ≤ pf2.portion_multiplier)
    (hs : pf1.sugar_effective_g ≤ pf2.sugar_effective_g)
    (hg : pf1.GL_portion ≤ pf2.GL_portion) :
    contrib_avoid a pf1 ≤ contrib_avoid a pf2 := by
  unfold contrib_avoid
  split_ifs <;>
    first
      | omega
      | (exfalso
         simp only [not_and_or, not_or, not_le, not_lt] at *
         (try casesm* _ ∨ _, _ ∧ _) <;> linarith)

set_option maxHeartbeats 1600000 in
lemma contrib_portion_mono (pf1 pf2 : PortionFeatures)
    (ht : pf1.portion_multiplier ≤ pf2.portion_multiplier)
    (hs : pf1.sugar_effective_g ≤ pf2.sugar_effective_g)
    (hg : pf1.GL_portion ≤ pf2.GL_portion) :
    contrib_portion pf1 ≤ contrib_portion pf2 := by
  unfold contrib_portion
  split_ifs <;>
    first
      | omega
      | (exfalso
         simp only [not_and_or, not_or, not_le, not_lt] at *
         (try casesm* _ ∨ _, _ ∧ _) <;> linarith)

lemma contrib_sugar_mono (pf1 pf2 : PortionFeatures)
    (hs : pf1.sugar_effective_g ≤ pf2.sugar_effective_g) :
    contrib_sugar pf1 ≤ contrib_sugar pf2 := by
  unfold contrib_sugar
  split_ifs <;> first | omega | linarith

lemma contrib_gl_mono (pf1 pf2 : PortionFeatures)
    (hg : pf1.GL_portion ≤ pf2.GL_portion) :
    contrib_gl pf1 ≤ contrib_gl pf2 := by
  unfold contrib_gl
  split_ifs <;> first | omega | linarith

lemma contrib_cal_mono (pf1 pf2 : PortionFeatures)
    (hc : pf1.calories_effective_kcal ≤ pf2.calories_effective_kcal) :
    contrib_cal pf1 ≤ contrib_cal pf2 := by
  unfold contrib_cal
  split_ifs <;> first | omega | linarith

lemma apply_hard_guardrails_not_safe (food_row : FoodRow) (pf : PortionFeatures) :
    (apply_hard_guardrails food_row pf).1 ≠ some RiskLevel.SAFE := by
  unfold apply_hard_guardrails
  exact rule_calorie_not_safe _ _ (rule_glycemic_load_not_safe _ _
    (rule_sugar_load_not_safe _ _ (rule_portion_sanity_not_safe _ _
      (rule_avoid_flag_not_safe _ _ _ (by simp)))))

/-- Explicit evaluation of `compute_portion_features` whenever the (defaulted)
serving size is non-zero. -/
lemma compute_portion_features_ok (food_row : FoodRow) (portion_size_g : ℚ)
    (h : food_row.serving_size_g.getD 100 ≠ 0) :
    compute_portion_features food_row portion_size_g = .ok
      { portion_multiplier := portion_size_g / food_row.serving_size_g.getD 100
        carbs_effective_g :=
          food_row.carbs_g.getD 0 * (portion_size_g / food_row.serving_size_g.getD 100)
        sugar_effective_g :=
          food_row.sugar_g.getD 0 * (portion_size_g / food_row.serving_size_g.getD 100)
        calories_effective_kcal :=
          food_row.calories_kcal.getD 0 * (portion_size_g / food_row.serving_size_g.getD 100)
        GL_portion :=
          food_row.carbs_g.getD 0 * (portion_size_g / food_row.serving_size_g.getD 100) *
            food_row.glycemic_index.getD 50 / 100
        fiber_to_carb_ratio := food_row.fiber_g.getD 0 / max 1 (food_row.carbs_g.getD 0)
        protein_to_carb_ratio := food_row.protein_g.getD 0 / max 1 (food_row.carbs_g.getD 0)
        energy_density :=
          if food_row.serving_size_g.getD 100 > 0 then
            food_row.calories_kcal.getD 0 / food_row.serving_size_g.getD 100
          else 0
        glycemic_index := food_row.glycemic_index.getD 50
        glycemic_load := food_row.glycemic_load.getD 0 } := by
  unfold compute_portion_features
  rw [if_neg h]

lemma fuse_sev_mono (g1 g2 : ℕ) (output : Option (Bool × ℚ)) (h : g1 ≤ g2)
    (h2 : g2 ≤ 2) :
    fuse_sev g1 output ≤ fuse_sev g2 output := by
  rcases output with _ | ⟨(_ | _), c⟩ <;>
    simp only [fuse_sev] <;>
    split_ifs <;>
    omega


lemma predict_const_sev (df : String → Option FoodRow) (meal : String) (food_row : FoodRow)
    (m : ℚ) (u : UserData) (output : Option (Bool × ℚ)) (pf : PortionFeatures)
    (r : PredictionResult)
    (hdf : df meal = some food_row) (hpf : compute_portion_features food_row m = .ok pf)
    (hok : predict_meal_safety df meal m u (output.map (fun bc => fun _ => bc)) = .ok r) :
    sev r.risk_level = fuse_sev (osev (apply_hard_guardrails food_row pf).1) output := by
  have hns := apply_hard_guardrails_not_safe food_row pf
  rcases output with _ | ⟨(_ | _), c⟩ <;>
    rcases hg : (apply_hard_guardrails food_row pf).1 with _ | (_ | _ | _) <;>
    simp only [predict_meal_safety, hdf, hpf, hg] at hok <;>
    first
      | exact absurd hg hns
      | (injection hok with h
         subst h
         simp [fuse_sev, osev, sev] <;> (try (split_ifs <;> simp [sev])))

/-! ## Evaluation helpers for the concrete fixtures -/

lemma avoid_gulab_eval : avoid_for_diabetic gulab_jamun = true := by decide

lemma avoid_lassi_eval : avoid_for_diabetic sweet_lassi = false := by decide

lemma avoid_cake_eval : avoid_for_diabetic cream_cake = true := by decide

lemma avoid_dal_eval : avoid_for_diabetic mixed_dal = false := by decide

lemma avoid_tea_eval : avoid_for_diabetic hot_tea = false := by decide

lemma bowl_grams_eval : portion_unit_to_grams (lower_list "bowl".data) = 250 := by decide

lemma compute_gulab_eval : compute_portion_features gulab_jamun 100 = .ok gulab_pf := by
  norm_num [compute_portion_features, gulab_jamun, gulab_pf]

lemma compute_lassi_eval : compute_portion_features sweet_lassi 100 = .ok lassi_pf := by
  norm_num [compute_portion_features, sweet_lassi, lassi_pf]

lemma compute_cake_eval : compute_portion_features cream_cake 30 = .ok cake_pf := by
  norm_num [compute_portion_features, cream_cake, cake_pf]

lemma guardrails_gulab_eval :
    apply_hard_guardrails gulab_jamun gulab_pf =
      (some RiskLevel.UNSAFE_,
       [Reason.avoid_high_risk 50 35, Reason.very_high_sugar 50, Reason.very_high_gl 35]) := by
  norm_num +decide [apply_hard_guardrails, rule_avoid_flag, rule_portion_sanity, rule_sugar_load,
    rule_glycemic_load, rule_calorie, avoid_gulab_eval, gulab_pf]

lemma guardrails_lassi_eval :
    apply_hard_guardrails sweet_lassi lassi_pf =
      (some RiskLevel.CAUTION, [Reason.high_sugar 35]) := by
  norm_num +decide [apply_hard_guardrails, rule_avoid_flag, rule_portion_sanity, rule_sugar_load,
    rule_glycemic_load, rule_calorie, avoid_lassi_eval, lassi_pf]

lemma lassi_predict_eval :
    predict_meal_safety lassi_df "Sweet lassi" 100 u0 (some confident_safe_model) =
      .ok lassi_result := by
  norm_num +decide [predict_meal_safety, lassi_df, compute_lassi_eval, guardrails_lassi_eval,
    confident_safe_model, lassi_result]

/-- Claim C1: if the guardrail engine returns UNSAFE, `predict_meal_safety`
returns UNSAFE with confidence exactly 0.95, the classifier is not queried
(`model_prediction = none`), and the entire result is identical for every
classifier, including one that answers SAFE with confidence 1.0. -/
theorem c1_unsafe_guardrail_is_authoritative
    (df : String → Option FoodRow) (meal : String) (food_row : FoodRow) (m : ℚ)
    (u : UserData) (pf : PortionFeatures) (model : Option (List ℚ → Bool × ℚ))
    (hdf : df meal = some food_row)
    (hpf : compute_portion_features food_row m = .ok pf)
    (hg : (apply_hard_guardrails food_row pf).1 = some RiskLevel.UNSAFE_) :
    predict_meal_safety df meal m u model = .ok
      { risk_level := RiskLevel.UNSAFE_
        confidence := 95 / 100
        portion_features := pf
        guardrail_triggered := true
        model_prediction := none
        reasons := (apply_hard_guardrails food_row pf).2 } ∧
    ∀ model2, predict_meal_safety df meal m u model2 =
      predict_meal_safety df meal m u model := by
  constructor
  · rcases model with _ | f <;> simp [predict_meal_safety, hdf, hpf, hg]
  · intro model2
    rcases model with _ | f <;> rcases model2 with _ | f2 <;>
      simp [predict_meal_safety, hdf, hpf, hg]

/-- Witness for C1 at the fixture `gulab_jamun` (effective sugar 50 g fires
the UNSAFE sugar rule) with a classifier stubbed to answer SAFE at
confidence 1.0. -/
theorem c1_witness :
    predict_meal_safety gulab_df "Gulab jamun" 100 u0 (some always_safe_model) = .ok
      { risk_level := RiskLevel.UNSAFE_
        confidence := 95 / 100
        portion_features := gulab_pf
        guardrail_triggered := true
        model_prediction := none
        reasons := (apply_hard_guardrails gulab_jamun gulab_pf).2 } ∧
    ∀ model2, predict_meal_safety gulab_df "Gulab jamun" 100 u0 model2 =
      predict_meal_safety gulab_df "Gulab jamun" 100 u0 (some always_safe_model) :=
  c1_unsafe_guardrail_is_authoritative gulab_df "Gulab jamun" gulab_jamun 100 u0 gulab_pf
    (some always_safe_model) (by simp [gulab_df]) compute_gulab_eval
    (by rw [guardrails_gulab_eval])

/-- Claim C3: the guardrail engine never downgrades UNSAFE — if the verdict
is UNSAFE after any of the five rules, the returned verdict is UNSAFE. -/
theorem c3_unsafe_never_downgraded (food_row : FoodRow) (pf : PortionFeatures)
    (h : (rule_avoid_flag (avoid_for_diabetic food_row) pf (none, [])).1 =
          some RiskLevel.UNSAFE_
       ∨ (rule_portion_sanity pf
            (rule_avoid_flag (avoid_for_diabetic food_row) pf (none, []))).1 =
          some RiskLevel.UNSAFE_
       ∨ (rule_sugar_load pf (rule_portion_sanity pf
            (rule_avoid_flag (avoid_for_diabetic food_row) pf (none, [])))).1 =
          some RiskLevel.UNSAFE_
       ∨ (rule_glycemic_load pf (rule_sugar_load pf (rule_portion_sanity pf
            (rule_avoid_flag (avoid_for_diabetic food_row) pf (none, []))))).1 =
          some RiskLevel.UNSAFE_
       ∨ (apply_hard_guardrails food_row pf).1 = some RiskLevel.UNSAFE_) :
    (apply_hard_guardrails food_row pf).1 = some RiskLevel.UNSAFE_ := by
  unfold apply_hard_guardrails
  rcases h with h | h | h | h | h
  · exact rule_calorie_keeps _ _ (rule_glycemic_load_keeps _ _
      (rule_sugar_load_keeps _ _ (rule_portion_sanity_keeps _ _ h)))
  · exact rule_calorie_keeps _ _ (rule_glycemic_load_keeps _ _
      (rule_sugar_load_keeps _ _ h))
  · exact rule_calorie_keeps _ _ (rule_glycemic_load_keeps _ _ h)
  · exact rule_calorie_keeps _ _ h
  · exact h

/-- Witness for C3: at the `gulab_jamun` fixture the avoid-flag rule already
sets UNSAFE and the returned verdict is UNSAFE. -/
theorem c3_witness :
    (apply_hard_guardrails gulab_jamun gulab_pf).1 = some RiskLevel.UNSAFE_ :=
  c3_unsafe_never_downgraded gulab_jamun gulab_pf
    (Or.inl (by norm_num +decide [rule_avoid_flag, avoid_gulab_eval, gulab_pf]))

/-- Claim C4: for a food with the avoid flag set, portions with portion GL
at most 8, effective sugar at most 10 g and multiplier at most 3 make the
avoid-flag rule defer: it sets no verdict and appends no reason. -/
theorem c4_avoid_flag_defers (food_row : FoodRow) (pf : PortionFeatures) (st : GuardState)
    (ha : avoid_for_diabetic food_row = true)
    (h1 : pf.GL_portion ≤ 8) (h2 : pf.sugar_effective_g ≤ 10)
    (h3 : pf.portion_multiplier ≤ 3) :
    rule_avoid_flag (avoid_for_diabetic food_row) pf st = st := by
  simp [rule_avoid_flag, ha, h1, h2, h3]

/-- Witness for C4: the spec's "Plain cream cake" scenario — one 30 g slice
(multiplier 0.3, effective sugar 3.6 g, portion GL 3.6) leaves the verdict
unset even though the avoid flag is set. -/
theorem c4_witness :
    compute_portion_features cream_cake 30 = .ok cake_pf ∧
    avoid_for_diabetic cream_cake = true ∧
    rule_avoid_flag (avoid_for_diabetic cream_cake) cake_pf (none, []) = (none, []) :=
  ⟨compute_cake_eval, avoid_cake_eval,
   c4_avoid_flag_defers cream_cake cake_pf (none, []) avoid_cake_eval
     (by norm_num [cake_pf]) (by norm_num [cake_pf]) (by norm_num [cake_pf])⟩

/-- Claim C9: in the category-aware variant, effective sugar ≥ 30 g, portion
GL ≥ 40 or multiplier ≥ 6 forces UNSAFE regardless of the category verdict. -/
theorem c9_extreme_override (food_row : FoodRow) (pf : PortionFeatures)
    (u : Option UserData)
    (h : pf.sugar_effective_g ≥ 30 ∨ pf.GL_portion ≥ 40 ∨ pf.portion_multiplier ≥ 6) :
    (get_enhanced_medical_guardrails food_row pf u).1 = some RiskLevel.UNSAFE_ := by
  unfold get_enhanced_medical_guardrails
  rcases h with h | h | h <;> split_ifs <;> first | rfl | (exfalso; linarith)

/-- Witness for C9 at the `sweet_lassi` fixture (35 g effective sugar). -/
theorem c9_witness :
    (get_enhanced_medical_guardrails sweet_lassi lassi_pf none).1 =
      some RiskLevel.UNSAFE_ :=
  c9_extreme_override sweet_lassi lassi_pf none (Or.inl (by norm_num [lassi_pf]))

/-- Claim C6: `compute_portion_features` returns `GL_portion =
carbs_effective_g × glycemic_index / 100`, effective values equal to the
per-serving values times the portion multiplier (with the multiplier equal to
mass over serving size, hence linear in the mass), and per-serving ratios
whose denominator is floored at 1. -/
theorem c6_portion_feature_formulas (food_row : FoodRow) (m : ℚ) (pf : PortionFeatures)
    (h : compute_portion_features food_row m = .ok pf) :
    pf.portion_multiplier = m / food_row.serving_size_g.getD 100 ∧
    pf.carbs_effective_g = food_row.carbs_g.getD 0 * pf.portion_multiplier ∧
    pf.sugar_effective_g = food_row.sugar_g.getD 0 * pf.portion_multiplier ∧
    pf.calories_effective_kcal = food_row.calories_kcal.getD 0 * pf.portion_multiplier ∧
    pf.GL_portion = pf.carbs_effective_g * food_row.glycemic_index.getD 50 / 100 ∧
    pf.fiber_to_carb_ratio = food_row.fiber_g.getD 0 / max 1 (food_row.carbs_g.getD 0) ∧
    pf.protein_to_carb_ratio = food_row.protein_g.getD 0 / max 1 (food_row.carbs_g.getD 0) ∧
    ∀ m2 pf2, compute_portion_features food_row m2 = .ok pf2 →
      pf2.fiber_to_carb_ratio = pf.fiber_to_carb_ratio ∧
      pf2.protein_to_carb_ratio = pf.protein_to_carb_ratio := by
  have hne : food_row.serving_size_g.getD 100 ≠ 0 := by
    intro h0
    unfold compute_portion_features at h
    rw [if_pos h0] at h
    exact Except.noConfusion h
  rw [compute_portion_features_ok food_row m hne] at h
  injection h with h
  subst h
  refine ⟨rfl, rfl, rfl, rfl, rfl, rfl, rfl, ?_⟩
  intro m2 pf2 h2
  rw [compute_portion_features_ok food_row m2 hne] at h2
  injection h2 with h2
  subst h2
  exact ⟨rfl, rfl⟩

/-- Witness for C6 at the `mixed_dal` fixture (mass 100 g). -/
theorem c6_witness :
    dal_pf.portion_multiplier = 100 / mixed_dal.serving_size_g.getD 100 ∧
    dal_pf.carbs_effective_g = mixed_dal.carbs_g.getD 0 * dal_pf.portion_multiplier ∧
    dal_pf.sugar_effective_g = mixed_dal.sugar_g.getD 0 * dal_pf.portion_multiplier ∧
    dal_pf.calories_effective_kcal =
      mixed_dal.calories_kcal.getD 0 * dal_pf.portion_multiplier ∧
    dal_pf.GL_portion = dal_pf.carbs_effective_g * mixed_dal.glycemic_index.getD 50 / 100 ∧
    dal_pf.fiber_to_carb_ratio =
      mixed_dal.fiber_g.getD 0 / max 1 (mixed_dal.carbs_g.getD 0) ∧
    dal_pf.protein_to_carb_ratio =
      mixed_dal.protein_g.getD 0 / max 1 (mixed_dal.carbs_g.getD 0) :=
  have h := c6_portion_feature_formulas mixed_dal 100 dal_pf
    (by norm_num [compute_portion_features, mixed_dal, dal_pf])
  ⟨h.1, h.2.1, h.2.2.1, h.2.2.2.1, h.2.2.2.2.1, h.2.2.2.2.2.1, h.2.2.2.2.2.2.1⟩

/-- Claim C7, corrected by `c7_zero_serving_counterexample`: a missing
`serving_size_g` column is defaulted to 100 g and the computation succeeds,
but a present zero value makes the portion-multiplier division raise
`ZeroDivisionError` (only the `energy_density` line is guarded). -/
theorem c7_serving_size_defaults (food_row : FoodRow) (m : ℚ) :
    (food_row.serving_size_g = none →
      compute_portion_features food_row m =
        compute_portion_features { food_row with serving_size_g := some 100 } m ∧
      (compute_portion_features food_row m).isOk = true) ∧
    (food_row.serving_size_g = some 0 →
      compute_portion_features food_row m = .error PyError.zeroDivision) := by
  constructor
  · intro h0
    have hne : food_row.serving_size_g.getD 100 ≠ 0 := by
      rw [h0]
      norm_num
    constructor
    · unfold compute_portion_features
      rw [h0]
      rfl
    · rw [compute_portion_features_ok food_row m hne]
      rfl
  · intro h0
    unfold compute_portion_features
    rw [h0]
    norm_num

/-- The claim C7 as stated is false for a present-and-zero serving size:
the computation fails with a division by zero instead of defaulting to
100 g. -/
theorem c7_zero_serving_counterexample :
    zero_serving_food.serving_size_g = some 0 ∧
    compute_portion_features zero_serving_food 100 = .error PyError.zeroDivision := by
  refine ⟨rfl, ?_⟩
  norm_num [compute_portion_features, zero_serving_food]

/-- Witness for the amended C7: a missing column is defaulted (and the
computation succeeds), a zero column raises. -/
theorem c7_witness :
    (compute_portion_features missing_serving_food 100 =
      compute_portion_features { missing_serving_food with serving_size_g := some 100 } 100 ∧
     (compute_portion_features missing_serving_food 100).isOk = true) ∧
    compute_portion_features zero_serving_food 5 = .error PyError.zeroDivision :=
  ⟨(c7_serving_size_defaults missing_serving_food 100).1 rfl,
   (c7_serving_size_defaults zero_serving_food 5).2 rfl⟩

/-- Claim C10: the general guardrail engine never answers SAFE, so a final
SAFE verdict can only come from the classifier's prediction. -/
theorem c10_guardrails_never_assert_safe (food_row : FoodRow) (pf : PortionFeatures) :
    (apply_hard_guardrails food_row pf).1 ≠ some RiskLevel.SAFE ∧
    (∀ (df : String → Option FoodRow) (meal : String) (m : ℚ) (u : UserData)
       (model : Option (List ℚ → Bool × ℚ)) (r : PredictionResult),
      predict_meal_safety df meal m u model = .ok r →
      r.risk_level = RiskLevel.SAFE → r.model_prediction = some RiskLevel.SAFE) := by
  refine ⟨apply_hard_guardrails_not_safe food_row pf, ?_⟩
  intro df meal m u model r hok hsafe
  rcases hdf : df meal with _ | food2
  · simp only [predict_meal_safety, hdf] at hok
    exact Except.noConfusion hok
  rcases hpf : compute_portion_features food2 m with e | pf2
  · simp only [predict_meal_safety, hdf, hpf] at hok
    exact Except.noConfusion hok
  have hns := apply_hard_guardrails_not_safe food2 pf2
  rcases model with _ | f <;>
    rcases hg : (apply_hard_guardrails food2 pf2).1 with _ | (_ | _ | _) <;>
    simp only [predict_meal_safety, hdf, hpf, hg] at hok <;>
    first
      | exact absurd hg hns
      | (injection hok with h
         subst h
         simp only [] at hsafe ⊢
         split_ifs at hsafe ⊢ <;> simp_all)

/-- Witness for C10: the guardrail verdict at a concrete fixture is not SAFE,
and the one SAFE outcome of the `sweet_lassi` run indeed came from the
classifier. -/
theorem c10_witness :
    (apply_hard_guardrails mixed_dal lassi_pf).1 ≠ some RiskLevel.SAFE ∧
    lassi_result.model_prediction = some RiskLevel.SAFE :=
  ⟨(c10_guardrails_never_assert_safe mixed_dal lassi_pf).1,
   (c10_guardrails_never_assert_safe mixed_dal lassi_pf).2 lassi_df "Sweet lassi" 100 u0
     (some confident_safe_model) lassi_result lassi_predict_eval rfl⟩

/-- Claim C5: with a CAUTION guardrail verdict the final verdict stays
CAUTION unless the classifier answers SAFE with confidence strictly above
0.9, in which case the final verdict is SAFE and the reported confidence is
the classifier confidence damped by the factor 0.8 < 1. -/
theorem c5_caution_guardrail_fusion
    (df : String → Option FoodRow) (meal : String) (food_row : FoodRow) (m : ℚ)
    (u : UserData) (pf : PortionFeatures) (model : Option (List ℚ → Bool × ℚ))
    (r : PredictionResult)
    (hdf : df meal = some food_row)
    (hpf : compute_portion_features food_row m = .ok pf)
    (hg : (apply_hard_guardrails food_row pf).1 = some RiskLevel.CAUTION)
    (hok : predict_meal_safety df meal m u model = .ok r) :
    (8 : ℚ) / 10 < 1 ∧
    (model = none → r.risk_level = RiskLevel.CAUTION) ∧
    (∀ f b c, model = some f →
      f (prepare_features_for_model food_row pf u) = (b, c) →
      ((b = true ∧ c > 9 / 10) →
        r.risk_level = RiskLevel.SAFE ∧ r.confidence = c * (8 / 10)) ∧
      (¬(b = true ∧ c > 9 / 10) → r.risk_level = RiskLevel.CAUTION)) := by
  refine ⟨by norm_num, ?_, ?_⟩
  · rintro rfl
    simp only [predict_meal_safety, hdf, hpf, hg] at hok
    injection hok with h
    subst h
    simp +decide
  · rintro f b c rfl hf
    simp only [predict_meal_safety, hdf, hpf, hg, hf] at hok
    rcases b with _ | _
    · injection hok with h
      subst h
      refine ⟨fun hbc => absurd hbc.1 (by decide), fun _ => ?_⟩
      simp +decide
    · injection hok with h
      subst h
      constructor
      · rintro ⟨-, hc⟩
        simp +decide [hc]
      · intro hbc
        have hc : ¬ c > 9 / 10 := fun hc => hbc ⟨rfl, hc⟩
        simp +decide [hc]

/-- Witness for C5 at the `sweet_lassi` fixture: guardrail CAUTION
(35 g sugar band), classifier SAFE at 0.95 > 0.9, final verdict SAFE with
confidence 0.95 × 0.8. -/
theorem c5_witness :
    lassi_result.risk_level = RiskLevel.SAFE ∧
    lassi_result.confidence = (19 : ℚ) / 20 * (8 / 10) :=
  ((c5_caution_guardrail_fusion lassi_df "Sweet lassi" sweet_lassi 100 u0 lassi_pf
      (some confident_safe_model) lassi_result (by simp [lassi_df]) compute_lassi_eval
      (by rw [guardrails_lassi_eval]) lassi_predict_eval).2.2 confident_safe_model true
      (19 / 20) rfl rfl).1 ⟨rfl, by norm_num⟩

/-- The claim C8 as stated is false: a request with `portion_size = 0` is not
rejected — the `/predict` handler happily returns a prediction, and the
request's zero height is silently replaced by the default BMI of 25. -/
theorem c8_no_validation_counterexample :
    req0.portion_size = 0 ∧ req0.height_cm = 0 ∧
    predict_endpoint dal_df none req0 =
      .ok { is_safe := false, confidence := 3 / 5, risk_level := "medium", bmi := 25 } := by
  refine ⟨rfl, rfl, ?_⟩
  norm_num +decide [predict_endpoint, predict_meal_safety, dal_df, req0,
    compute_portion_features, mixed_dal, apply_hard_guardrails, rule_avoid_flag,
    rule_portion_sanity, rule_sugar_load, rule_glycemic_load, rule_calorie,
    avoid_dal_eval, calculate_bmi, bowl_grams_eval]

/-- Claim C8, corrected: there is no quantity or BMI validation anywhere on
the `/predict` path.  `calculate_bmi` silently returns the default 25 for any
non-positive height or weight, and a request whose (possibly zero or
negative) converted mass yields a well-defined feature record produces a
normal `200` response. -/
theorem c8_amended_no_invalid_quantity_error :
    (∀ w h : ℚ, h ≤ 0 ∨ w ≤ 0 → calculate_bmi w h = 25) ∧
    (∀ (df : String → Option FoodRow) (model : Option (List ℚ → Bool × ℚ))
       (req : MealRequest) (food_row : FoodRow) (pf : PortionFeatures),
      df req.meal_taken = some food_row →
      compute_portion_features food_row
          (req.portion_size * portion_unit_to_grams (lower_list req.portion_unit.data)) =
        .ok pf →
      (predict_endpoint df model req).isOk = true) := by
  constructor
  · intro w h hwh
    unfold calculate_bmi
    rw [if_pos hwh]
  · intro df model req food_row pf hdf hpf
    simp only [predict_endpoint, predict_meal_safety, hdf, hpf]
    rcases model with _ | f <;> rfl

/-- Witness for the amended C8: `calculate_bmi 70 0 = 25`, and the
zero-quantity request `req0` yields a 200 response. -/
theorem c8_witness :
    calculate_bmi 70 0 = 25 ∧ (predict_endpoint dal_df none req0).isOk = true :=
  ⟨c8_amended_no_invalid_quantity_error.1 70 0 (Or.inl le_rfl),
   c8_amended_no_invalid_quantity_error.2 dal_df none req0 mixed_dal dal_pf0
     (by simp [dal_df, req0])
     (by norm_num [compute_portion_features, mixed_dal, dal_pf0, req0, bowl_grams_eval])⟩

lemma compute_tea50_eval : compute_portion_features hot_tea 50 = .ok tea_pf50 := by
  norm_num [compute_portion_features, hot_tea, tea_pf50]

lemma compute_tea100_eval : compute_portion_features hot_tea 100 = .ok tea_pf100 := by
  norm_num [compute_portion_features, hot_tea, tea_pf100]

lemma guardrails_tea50_eval : apply_hard_guardrails hot_tea tea_pf50 = (none, []) := by
  norm_num +decide [apply_hard_guardrails, rule_avoid_flag, rule_portion_sanity,
    rule_sugar_load, rule_glycemic_load, rule_calorie, avoid_tea_eval, tea_pf50]

lemma guardrails_tea100_eval : apply_hard_guardrails hot_tea tea_pf100 = (none, []) := by
  norm_num +decide [apply_hard_guardrails, rule_avoid_flag, rule_portion_sanity,
    rule_sugar_load, rule_glycemic_load, rule_calorie, avoid_tea_eval, tea_pf100]

lemma tea_model_at50 :
    tea_model (prepare_features_for_model hot_tea tea_pf50 u0) = (false, 3 / 5) := by
  norm_num [tea_model, prepare_features_for_model, u0, time_encoded, tea_pf50,
    List.getD, List.get?]

lemma tea_model_at100 :
    tea_model (prepare_features_for_model hot_tea tea_pf100 u0) = (true, 19 / 20) := by
  norm_num [tea_model, prepare_features_for_model, u0, time_encoded, tea_pf100,
    List.getD, List.get?]

/-- The claim C2 as stated is false on the code: for the all-zero dish
`hot_tea` and the deterministic classifier `tea_model` (a function of the
13-entry feature vector), the 50 g request ends CAUTION (severity 1) while
the larger 100 g request ends SAFE (severity 0) — severity decreases as the
mass grows. -/
theorem c2_nonmonotone_counterexample :
    (50 : ℚ) ≤ 100 ∧
    predict_meal_safety tea_df "Hot tea" 50 u0 (some tea_model) = .ok tea_cex_result50 ∧
    predict_meal_safety tea_df "Hot tea" 100 u0 (some tea_model) = .ok tea_cex_result100 ∧
    sev tea_cex_result100.risk_level < sev tea_cex_result50.risk_level := by
  refine ⟨by norm_num, ?_, ?_, by decide⟩
  · norm_num +decide [predict_meal_safety, tea_df, compute_tea50_eval,
      guardrails_tea50_eval, tea_model_at50, tea_cex_result50]
  · norm_num +decide [predict_meal_safety, tea_df, compute_tea100_eval,
      guardrails_tea100_eval, tea_model_at100, tea_cex_result100]

/-- Claim C2, amended: for a fixed food record satisfying the data-model
invariants (positive defaulted serving size, non-negative nutrient columns),
a fixed user context and a classifier stub whose output does not depend on
the feature vector, the final verdict's severity is monotonically
non-decreasing in the requested mass. -/
theorem c2_amended_monotone_for_constant_classifier
    (df : String → Option FoodRow) (meal : String) (food_row : FoodRow) (u : UserData)
    (output : Option (Bool × ℚ)) (m1 m2 : ℚ) (r1 r2 : PredictionResult)
    (hdf : df meal = some food_row)
    (hserv : 0 < food_row.serving_size_g.getD 100)
    (hsug : 0 ≤ food_row.sugar_g.getD 0)
    (hcarb : 0 ≤ food_row.carbs_g.getD 0)
    (hgi : 0 ≤ food_row.glycemic_index.getD 50)
    (hcal : 0 ≤ food_row.calories_kcal.getD 0)
    (hm : m1 ≤ m2)
    (h1 : predict_meal_safety df meal m1 u (output.map (fun bc => fun _ => bc)) = .ok r1)
    (h2 : predict_meal_safety df meal m2 u (output.map (fun bc => fun _ => bc)) = .ok r2) :
    sev r1.risk_level ≤ sev r2.risk_level := by
  have hne : food_row.serving_size_g.getD 100 ≠ 0 := ne_of_gt hserv
  have hc1 := compute_portion_features_ok food_row m1 hne
  have hc2 := compute_portion_features_ok food_row m2 hne
  have hinv : (0 : ℚ) ≤ (food_row.serving_size_g.getD 100)⁻¹ :=
    inv_nonneg.mpr (le_of_lt hserv)
  have hmul : m1 / food_row.serving_size_g.getD 100 ≤ m2 / food_row.serving_size_g.getD 100 := by
    rw [div_eq_mul_inv, div_eq_mul_inv]
    exact mul_le_mul_of_nonneg_right hm hinv
  have hsug2 :
      food_row.sugar_g.getD 0 * (m1 / food_row.serving_size_g.getD 100) ≤
        food_row.sugar_g.getD 0 * (m2 / food_row.serving_size_g.getD 100) :=
    mul_le_mul_of_nonneg_left hmul hsug
  have hcal2 :
      food_row.calories_kcal.getD 0 * (m1 / food_row.serving_size_g.getD 100) ≤
        food_row.calories_kcal.getD 0 * (m2 / food_row.serving_size_g.getD 100) :=
    mul_le_mul_of_nonneg_left hmul hcal
  have hgl2 :
      food_row.carbs_g.getD 0 * (m1 / food_row.serving_size_g.getD 100) *
          food_row.glycemic_index.getD 50 / 100 ≤
        food_row.carbs_g.getD 0 * (m2 / food_row.serving_size_g.getD 100) *
          food_row.glycemic_index.getD 50 / 100 := by
    have ha : food_row.carbs_g.getD 0 * (m1 / food_row.serving_size_g.getD 100) ≤
        food_row.carbs_g.getD 0 * (m2 / food_row.serving_size_g.getD 100) :=
      mul_le_mul_of_nonneg_left hmul hcarb
    have hb := mul_le_mul_of_nonneg_right ha hgi
    rw [div_eq_mul_inv, div_eq_mul_inv]
    exact mul_le_mul_of_nonneg_right hb (by norm_num)
  rw [predict_const_sev df meal food_row m1 u output _ r1 hdf hc1 h1,
      predict_const_sev df meal food_row m2 u output _ r2 hdf hc2 h2]
  refine fuse_sev_mono _ _ output ?_ (osev_le_two _)
  rw [osev_apply_hard_guardrails, osev_apply_hard_guardrails]
  refine max_le_max (max_le_max (max_le_max (max_le_max ?_ ?_) ?_) ?_) ?_
  · exact contrib_avoid_mono _ _ _ hmul hsug2 hgl2
  · exact contrib_portion_mono _ _ hmul hsug2 hgl2
  · exact contrib_sugar_mono _ _ hsug2
  · exact contrib_gl_mono _ _ hgl2
  · exact contrib_cal_mono _ _ hcal2

/-- Witness for the amended C2: hot tea at 50 g and 100 g with no classifier
loaded — the severity does not decrease. -/
theorem c2_witness :
    sev tea_nomodel_result50.risk_level ≤ sev tea_nomodel_result100.risk_level :=
  c2_amended_monotone_for_constant_classifier tea_df "Hot tea" hot_tea u0 none 50 100
    tea_nomodel_result50 tea_nomodel_result100 (by simp [tea_df])
    (by norm_num [hot_tea]) (by norm_num [hot_tea]) (by norm_num [hot_tea])
    (by norm_num [hot_tea]) (by norm_num [hot_tea]) (by norm_num)
    (by norm_num +decide [predict_meal_safety, tea_df, compute_tea50_eval,
      guardrails_tea50_eval, tea_nomodel_result50])
    (by norm_num +decide [predict_meal_safety, tea_df, compute_tea100_eval,
      guardrails_tea100_eval, tea_nomodel_result100])
